import Mathlib

/-!
Shallow embedding of the in-memory PE header/table parser (src/lib.rs of
objparse), 64-bit variant (`target_arch = "x86_64"`).

Modelling conventions:
* Process memory is a total function `Mem : Nat → Nat`; readers take each
  byte modulo 256, so arbitrary functions behave like byte memory.
* Raw pointers and references (borrowed views) are modelled by the `Nat`
  address they point at; slices by a start address and a length, with the
  elements read from memory at access time (the Rust views are zero-copy,
  so this is the same data).
* Multi-byte fields are little-endian, as in the `object` crate
  (`U16<LE>`, `U32<LE>`, `U64<LE>` wrappers).
* `usize` arithmetic that the source performs with explicit wrapping
  (`wrapping_sub`) is taken modulo 2^64; fallible paths return
  `Except Error` mirroring `Result`; the arithmetic-underflow panic in
  `ImportTable::parse` / `DebugTable::parse` is the `none` branch of an
  `Option` result.
-/

/-- Byte-addressable process memory: address to byte value. -/
def Mem : Type := Nat → Nat

/-- `usize` modulus on the 64-bit target. -/
def USIZE : Nat := 18446744073709551616

/-- Wrapping `usize` addition (pointer `add`). -/
def wrapAdd (a b : Nat) : Nat := (a + b) % USIZE

/-- Wrapping `usize` subtraction (pointer `wrapping_sub`). -/
def wrapSub (a b : Nat) : Nat := (a + (USIZE - b % USIZE)) % USIZE

/-- Read one byte. -/
def readU8 (m : Mem) (a : Nat) : Nat := m a % 256

/-- Read a little-endian `u16`. -/
def readU16 (m : Mem) (a : Nat) : Nat := readU8 m a + 256 * readU8 m (a + 1)

/-- Read a little-endian `u32`. -/
def readU32 (m : Mem) (a : Nat) : Nat :=
  readU16 m a + 65536 * readU16 m (a + 2)

/-- Read a little-endian `u64`. -/
def readU64 (m : Mem) (a : Nat) : Nat :=
  readU32 m a + 4294967296 * readU32 m (a + 4)

/-- `IMAGE_DOS_SIGNATURE` ("MZ" read little-endian). -/
def IMAGE_DOS_SIGNATURE : Nat := 0x5A4D

/-- `IMAGE_NT_SIGNATURE` ("PE\x00\x00" read little-endian). -/
def IMAGE_NT_SIGNATURE : Nat := 0x4550

/-- `IMAGE_NT_OPTIONAL_HDR64_MAGIC`, the 64-bit optional-header magic. -/
def IMAGE_NT_OPTIONAL_HDR64_MAGIC : Nat := 0x20B

/-- Data-directory index of the export table. -/
def IMAGE_DIRECTORY_ENTRY_EXPORT : Nat := 0

/-- Data-directory index of the import table. -/
def IMAGE_DIRECTORY_ENTRY_IMPORT : Nat := 1

/-- Data-directory index of the debug table. -/
def IMAGE_DIRECTORY_ENTRY_DEBUG : Nat := 6

/-- Data-directory index of the TLS table. -/
def IMAGE_DIRECTORY_ENTRY_TLS : Nat := 9

/-- `size_of::<ImageNtHeaders64>()` in the `object` crate:
4 (signature) + 20 (`ImageFileHeader`) + 112 (`ImageOptionalHeader64`,
which in `object` ends at `number_of_rva_and_sizes` and does not include
the data directories). -/
def sizeOfImageNtHeaders64 : Nat := 136

/-- `size_of::<ImageDataDirectory>()`: two `u32` fields. -/
def sizeOfImageDataDirectory : Nat := 8

/-- `size_of::<ImageImportDescriptor>()`: five `u32` fields. -/
def sizeOfImageImportDescriptor : Nat := 20

/-- `size_of::<ImageDebugDirectory>()`. -/
def sizeOfImageDebugDirectory : Nat := 28

/-- Byte offset of `e_lfanew` (`nt_headers_offset`) in `ImageDosHeader`. -/
def OFF_e_lfanew : Nat := 60

/-- Byte offset of `file_header.number_of_sections` in `ImageNtHeaders64`. -/
def OFF_number_of_sections : Nat := 6

/-- Byte offset of `optional_header.magic` in `ImageNtHeaders64`. -/
def OFF_optional_magic : Nat := 24

/-- Byte offset of `optional_header.number_of_rva_and_sizes` in
`ImageNtHeaders64` (4 + 20 + 108). -/
def OFF_number_of_rva_and_sizes : Nat := 132

/-- Modelled from the spec: the error module (`src/error.rs`, declared by
`pub mod error` but not present in the source tree) carries one tagged
failure reason per parser — the spec's Error Model names them
`InvalidHeaders`, `MissingExportTable`, `MissingImportTable`,
`MissingDebugTable`, `MissingTlsTable`, which `lib.rs` uses as
`Error::PeHeaders`, `Error::ExportTable`, `Error::ImportTable`,
`Error::DebugTable`, `Error::TlsTable`. -/
inductive Error where
  | PeHeaders
  | ExportTable
  | ImportTable
  | DebugTable
  | TlsTable
deriving DecidableEq

/-- The parsed header view: `dos_header` and `nt_header` are borrowed
references (modelled by their addresses), the two arrays are slices
(start address and length). -/
structure PeHeaders where
  dos_header : Nat
  nt_header : Nat
  data_directories_addr : Nat
  data_directories_len : Nat
  section_headers_addr : Nat
  section_headers_len : Nat
deriving DecidableEq

/-- `PeHeaders::parse(address)` for the `x86_64` configuration. -/
def PeHeaders.parse (m : Mem) (address : Nat) : Except Error PeHeaders :=
  let dos_header_ptr := address
  if readU16 m dos_header_ptr ≠ IMAGE_DOS_SIGNATURE then
    .error .PeHeaders
  else
    let nt_header_offset := readU32 m (dos_header_ptr + OFF_e_lfanew)
    if nt_header_offset > 1024 then
      .error .PeHeaders
    else
      let nt_header_ptr := address + nt_header_offset
      if readU32 m nt_header_ptr ≠ IMAGE_NT_SIGNATURE then
        .error .PeHeaders
      else if readU16 m (nt_header_ptr + OFF_optional_magic)
          ≠ IMAGE_NT_OPTIONAL_HDR64_MAGIC then
        .error .PeHeaders
      else
        let data_directories_ptr := nt_header_ptr + sizeOfImageNtHeaders64
        let num_data_directories :=
          readU32 m (nt_header_ptr + OFF_number_of_rva_and_sizes)
        let section_headers_ptr :=
          data_directories_ptr + num_data_directories * sizeOfImageDataDirectory
        let num_section_headers :=
          readU16 m (nt_header_ptr + OFF_number_of_sections)
        .ok { dos_header := dos_header_ptr
              nt_header := nt_header_ptr
              data_directories_addr := data_directories_ptr
              data_directories_len := num_data_directories
              section_headers_addr := section_headers_ptr
              section_headers_len := num_section_headers }

/-- `virtual_address` field of data-directory entry `i` of a header view. -/
def PeHeaders.dataDirVirtualAddress (m : Mem) (h : PeHeaders) (i : Nat) : Nat :=
  readU32 m (h.data_directories_addr + sizeOfImageDataDirectory * i)

/-- `size` field of data-directory entry `i` of a header view. -/
def PeHeaders.dataDirSize (m : Mem) (h : PeHeaders) (i : Nat) : Nat :=
  readU32 m (h.data_directories_addr + sizeOfImageDataDirectory * i + 4)

/-- Byte offset of `number_of_functions` in `ImageExportDirectory`. -/
def OFF_number_of_functions : Nat := 20

/-- Byte offset of `number_of_names` in `ImageExportDirectory`. -/
def OFF_number_of_names : Nat := 24

/-- Byte offset of `address_of_functions` in `ImageExportDirectory`. -/
def OFF_address_of_functions : Nat := 28

/-- Byte offset of `address_of_names` in `ImageExportDirectory`. -/
def OFF_address_of_names : Nat := 32

/-- Byte offset of `address_of_name_ordinals` in `ImageExportDirectory`. -/
def OFF_address_of_name_ordinals : Nat := 36

/-- Byte offset of `address_of_call_backs` in `ImageTlsDirectory64`. -/
def OFF_address_of_call_backs : Nat := 24

/-- The export-table view: a borrowed `ImageExportDirectory` reference and
three slices, each modelled by start address and length. -/
structure ExportTable where
  export_directory : Nat
  address_table_addr : Nat
  address_table_len : Nat
  name_table_addr : Nat
  name_table_len : Nat
  ordinal_table_addr : Nat
  ordinal_table_len : Nat
  start_address : Nat
  size : Nat
deriving DecidableEq

/-- `ExportTable::parse(address, rva, size)`: each sub-array pointer is
`address.add(field_rva).wrapping_sub(rva)`. -/
def ExportTable.parse (m : Mem) (address rva size : Nat) : ExportTable :=
  let export_directory := address
  { export_directory := export_directory
    address_table_addr :=
      wrapSub (wrapAdd address (readU32 m (export_directory + OFF_address_of_functions))) rva
    address_table_len := readU32 m (export_directory + OFF_number_of_functions)
    name_table_addr :=
      wrapSub (wrapAdd address (readU32 m (export_directory + OFF_address_of_names))) rva
    name_table_len := readU32 m (export_directory + OFF_number_of_names)
    ordinal_table_addr :=
      wrapSub (wrapAdd address (readU32 m (export_directory + OFF_address_of_name_ordinals))) rva
    ordinal_table_len := readU32 m (export_directory + OFF_number_of_names)
    start_address := address
    size := size }

/-- The contents of a `&[u32]` slice view. -/
def readU32Array (m : Mem) (addr len : Nat) : List Nat :=
  (List.range len).map fun i => readU32 m (addr + 4 * i)

/-- The contents of a `&[u16]` slice view. -/
def readU16Array (m : Mem) (addr len : Nat) : List Nat :=
  (List.range len).map fun i => readU16 m (addr + 2 * i)

/-- The elements of the `address_table: &[u32]` view. -/
def ExportTable.address_table (m : Mem) (t : ExportTable) : List Nat :=
  readU32Array m t.address_table_addr t.address_table_len

/-- The elements of the `name_table: &[u32]` view. -/
def ExportTable.name_table (m : Mem) (t : ExportTable) : List Nat :=
  readU32Array m t.name_table_addr t.name_table_len

/-- The elements of the `ordinal_table: &[u16]` view. -/
def ExportTable.ordinal_table (m : Mem) (t : ExportTable) : List Nat :=
  readU16Array m t.ordinal_table_addr t.ordinal_table_len

/-- `ExportTable::iter_name_ord`: the name table zipped positionally with
the ordinal table (the Rust iterator, materialised as its list of
items — it is finite and restartable). -/
def ExportTable.iter_name_ord (m : Mem) (t : ExportTable) : List (Nat × Nat) :=
  (t.name_table m).zip (t.ordinal_table m)

/-- `ExportTable::iter_string_addr(image_base)`: for each (name_rva, ord)
pair, the `CStr` view (modelled by the address `image_base + name_rva` of
its first byte) and the pointer `image_base + address_table[ord]`.
The `get_unchecked(ord)` read is modelled by the raw memory read at
`address_table_addr + 4 * ord`, which is what the unchecked access does
whether or not `ord` is in bounds. -/
def ExportTable.iter_string_addr (m : Mem) (t : ExportTable) (image_base : Nat) :
    List (Nat × Nat) :=
  (t.iter_name_ord m).map fun p =>
    let string_ptr := image_base + p.1
    let address_rva := readU32 m (t.address_table_addr + 4 * p.2)
    (string_ptr, image_base + address_rva)

/-- The import-table view: a slice of `ImageImportDescriptor` records. -/
structure ImportTable where
  import_descriptors_addr : Nat
  import_descriptors_len : Nat
deriving DecidableEq

/-- `ImportTable::parse(address, size)`. The count is
`size / size_of::<ImageImportDescriptor>() - 1` over `usize`; when
`size / 20 = 0` that subtraction underflows (a panic in the source), the
`none` branch here. -/
def ImportTable.parse (address size : Nat) : Option ImportTable :=
  if size / sizeOfImageImportDescriptor = 0 then none
  else some { import_descriptors_addr := address
              import_descriptors_len := size / sizeOfImageImportDescriptor - 1 }

/-- The debug-table view: a slice of `ImageDebugDirectory` records. -/
structure DebugTable where
  debug_descriptors_addr : Nat
  debug_descriptors_len : Nat
deriving DecidableEq

/-- `DebugTable::parse(address, size)`: same convention as
`ImportTable::parse` with the 28-byte `ImageDebugDirectory` record. -/
def DebugTable.parse (address size : Nat) : Option DebugTable :=
  if size / sizeOfImageDebugDirectory = 0 then none
  else some { debug_descriptors_addr := address
              debug_descriptors_len := size / sizeOfImageDebugDirectory - 1 }

/-- The TLS-directory view: a borrowed `ImageTlsDirectory64` reference. -/
structure TlsDir where
  tls_dir : Nat
deriving DecidableEq

/-- `TlsDir::parse(address)` (`x86_64` configuration). -/
def TlsDir.parse (address : Nat) : TlsDir := { tls_dir := address }

/-- The TLS callback iterator state: the cursor pointer. -/
structure TlsCallbacks where
  callback_addr : Nat
deriving DecidableEq

/-- `TlsDir::callbacks()`: the cursor starts at the directory's
`address_of_call_backs` field value, cast to a pointer. -/
def TlsDir.callbacks (m : Mem) (t : TlsDir) : TlsCallbacks :=
  { callback_addr := readU64 m (t.tls_dir + OFF_address_of_call_backs) }

/-- `<TlsCallbacks as Iterator>::next`: reads the pointer-sized slot at the
cursor (`PIMAGE_TLS_CALLBACK` is `Option<fn>`, the null pointer being
`None`). In the source the statement `self.callback_addr.add(1);` computes
the advanced pointer but discards it without storing it back into `self`,
so the returned state is the input state unchanged; the discarded value is
the `let _` here. Returns (item, state after the call). -/
def TlsCallbacks.next (m : Mem) (s : TlsCallbacks) : Option Nat × TlsCallbacks :=
  let ret := readU64 m s.callback_addr
  let _ := s.callback_addr + 8
  (if ret = 0 then none else some ret, s)

/-- `PeHeaders::export_table_mem(image_base)`. -/
def PeHeaders.export_table_mem (m : Mem) (h : PeHeaders) (image_base : Nat) :
    Except Error ExportTable :=
  if IMAGE_DIRECTORY_ENTRY_EXPORT < h.data_directories_len then
    let export_table_rva := h.dataDirVirtualAddress m IMAGE_DIRECTORY_ENTRY_EXPORT
    let export_table_ptr := image_base + export_table_rva
    let export_table_size := h.dataDirSize m IMAGE_DIRECTORY_ENTRY_EXPORT
    .ok (ExportTable.parse m export_table_ptr export_table_rva export_table_size)
  else .error .ExportTable

/-- `PeHeaders::import_table_mem(image_base)`; the inner `Option` is the
panic path of `ImportTable::parse` (see there). -/
def PeHeaders.import_table_mem (m : Mem) (h : PeHeaders) (image_base : Nat) :
    Except Error (Option ImportTable) :=
  if IMAGE_DIRECTORY_ENTRY_IMPORT < h.data_directories_len then
    let import_table_rva := h.dataDirVirtualAddress m IMAGE_DIRECTORY_ENTRY_IMPORT
    let import_table_size := h.dataDirSize m IMAGE_DIRECTORY_ENTRY_IMPORT
    let import_table_ptr := image_base + import_table_rva
    .ok (ImportTable.parse import_table_ptr import_table_size)
  else .error .ImportTable

/-- `PeHeaders::debug_table_mem(image_base)`; the inner `Option` is the
panic path of `DebugTable::parse` (see there). -/
def PeHeaders.debug_table_mem (m : Mem) (h : PeHeaders) (image_base : Nat) :
    Except Error (Option DebugTable) :=
  if IMAGE_DIRECTORY_ENTRY_DEBUG < h.data_directories_len then
    let debug_table_rva := h.dataDirVirtualAddress m IMAGE_DIRECTORY_ENTRY_DEBUG
    let debug_table_size := h.dataDirSize m IMAGE_DIRECTORY_ENTRY_DEBUG
    let debug_table_ptr := image_base + debug_table_rva
    .ok (DebugTable.parse debug_table_ptr debug_table_size)
  else .error .DebugTable

/-- `PeHeaders::tls_table_mem(image_base)`. -/
def PeHeaders.tls_table_mem (m : Mem) (h : PeHeaders) (image_base : Nat) :
    Except Error (Option TlsDir) :=
  if IMAGE_DIRECTORY_ENTRY_TLS < h.data_directories_len then
    let tls_table_rva := h.dataDirVirtualAddress m IMAGE_DIRECTORY_ENTRY_TLS
    if tls_table_rva = 0 then .ok none
    else
      let tls_table_ptr := image_base + tls_table_rva
      .ok (some (TlsDir.parse tls_table_ptr))
  else .error .TlsTable

/-- All-zero memory. -/
def zeroMem : Mem := fun _ => 0

/-- A minimal well-formed 64-bit image prefix with known field values:
"MZ" at 0, `e_lfanew` = 64, "PE\x00\x00" at 64, optional-header magic
`0x20B` at 88, `number_of_sections` = 1 at 70,
`number_of_rva_and_sizes` = 2 at 196; every other byte zero. -/
def sampleImage : Mem := fun a =>
  if a = 0 then 0x4D
  else if a = 1 then 0x5A
  else if a = 60 then 64
  else if a = 64 then 0x50
  else if a = 65 then 0x45
  else if a = 70 then 1
  else if a = 88 then 0x0B
  else if a = 89 then 0x02
  else if a = 196 then 2
  else 0

/-- Memory holding a data-directory array at address 0 whose entry 9 (TLS)
has `virtual_address` = 5; every other byte zero. -/
def tlsEntryMem : Mem := fun a => if a = 72 then 5 else 0

/-- A header view with a 16-entry data-directory array at address 0. -/
def sixteenDirHeaders : PeHeaders :=
  { dos_header := 0
    nt_header := 0
    data_directories_addr := 0
    data_directories_len := 16
    section_headers_addr := 128
    section_headers_len := 0 }

/-- Memory holding an `ImageExportDirectory` at address 0 with
`number_of_functions` = 1, `number_of_names` = 1, the three array RVAs
64 / 80 / 96, `address_table[0]` = 17, `name_table[0]` = 112,
`ordinal_table[0]` = 0; every other byte zero. -/
def exportMem : Mem := fun a =>
  if a = 20 then 1
  else if a = 24 then 1
  else if a = 28 then 64
  else if a = 32 then 80
  else if a = 36 then 96
  else if a = 64 then 17
  else if a = 80 then 112
  else 0

/-- Memory holding a TLS callback array at address 0: pointer-sized slots
[1, 2, 0] (cb1 = 1, cb2 = 2, then the null terminator). -/
def callbackMem : Mem := fun a =>
  if a = 0 then 1
  else if a = 8 then 2
  else 0

theorem readU8_lt (m : Mem) (a : Nat) : readU8 m a < 256 :=
  Nat.mod_lt _ (by norm_num)

theorem readU16_eq_iff_bytes (m : Mem) (a : Nat) (b0 b1 : Nat)
    (hb0 : b0 < 256) (hb1 : b1 < 256) :
    readU16 m a = b0 + 256 * b1 ↔ (readU8 m a = b0 ∧ readU8 m (a + 1) = b1) := by
  have h0 := readU8_lt m a
  have h1 := readU8_lt m (a + 1)
  unfold readU16
  omega

theorem readU32_eq_iff_bytes (m : Mem) (a : Nat) (b0 b1 b2 b3 : Nat)
    (hb0 : b0 < 256) (hb1 : b1 < 256) (hb2 : b2 < 256) (hb3 : b3 < 256) :
    readU32 m a = b0 + 256 * b1 + 65536 * b2 + 16777216 * b3 ↔
      (readU8 m a = b0 ∧ readU8 m (a + 1) = b1 ∧
       readU8 m (a + 2) = b2 ∧ readU8 m (a + 3) = b3) := by
  have h0 := readU8_lt m a
  have h1 := readU8_lt m (a + 1)
  have h2 := readU8_lt m (a + 2)
  have h3 := readU8_lt m (a + 3)
  unfold readU32 readU16
  rw [show a + 2 + 1 = a + 3 by omega]
  omega

/-- **C3.** Header parsing fails with `Error::PeHeaders` (the spec's
`InvalidHeaders`) exactly when: the first two bytes are not the "MZ"
signature (little-endian `u16` value `0x5A4D`), or the NT-header offset
field at byte 60 exceeds 1024, or the four signature bytes at
`base + offset` are not "PE\x00\x00" (bytes `0x50 0x45 0x00 0x00`), or
the optional-header magic is not the 64-bit value `0x20B`; and on any of
these the function returns the error, never a header view. -/
theorem parse_error_iff (m : Mem) (base : Nat) :
    PeHeaders.parse m base = .error .PeHeaders ↔
      (¬ (readU8 m base = 0x4D ∧ readU8 m (base + 1) = 0x5A)
       ∨ readU32 m (base + 60) > 1024
       ∨ ¬ (readU8 m (base + readU32 m (base + 60)) = 0x50 ∧
            readU8 m (base + readU32 m (base + 60) + 1) = 0x45 ∧
            readU8 m (base + readU32 m (base + 60) + 2) = 0 ∧
            readU8 m (base + readU32 m (base + 60) + 3) = 0)
       ∨ readU16 m (base + readU32 m (base + 60) + 24) ≠ 0x20B) := by
  have hmz : readU16 m base = IMAGE_DOS_SIGNATURE ↔
      (readU8 m base = 0x4D ∧ readU8 m (base + 1) = 0x5A) := by
    simpa using readU16_eq_iff_bytes m base 0x4D 0x5A (by norm_num) (by norm_num)
  have hpe : readU32 m (base + readU32 m (base + 60)) = IMAGE_NT_SIGNATURE ↔
      (readU8 m (base + readU32 m (base + 60)) = 0x50 ∧
       readU8 m (base + readU32 m (base + 60) + 1) = 0x45 ∧
       readU8 m (base + readU32 m (base + 60) + 2) = 0 ∧
       readU8 m (base + readU32 m (base + 60) + 3) = 0) := by
    simpa using readU32_eq_iff_bytes m (base + readU32 m (base + 60))
      0x50 0x45 0 0 (by norm_num) (by norm_num) (by norm_num) (by norm_num)
  unfold PeHeaders.parse
  simp only [OFF_e_lfanew, OFF_optional_magic, IMAGE_NT_OPTIONAL_HDR64_MAGIC]
  rw [← hmz, ← hpe]
  split
  · simp_all
  · split
    · simp_all
    · split
      · simp_all
      · split
        · simp_all
        · simp_all

/-- **C7.** For every well-formed image buffer (valid "MZ" signature,
NT-header offset within the 1024-byte bound, valid "PE\x00\x00" signature
and 64-bit optional-header magic at that offset), the header parser
returns exactly the values present in the buffer: the DOS header view at
`base`, the NT header view at `base + offset`, the data-directory slice
starting immediately after the fixed 136-byte NT-header size with length
`number_of_rva_and_sizes`, and the section-header slice starting
immediately after the data-directory array with length
`number_of_sections`. -/
theorem parse_roundtrip (m : Mem) (base : Nat)
    (hmz : readU16 m base = 0x5A4D)
    (hoff : readU32 m (base + 60) ≤ 1024)
    (hsig : readU32 m (base + readU32 m (base + 60)) = 0x4550)
    (hmagic : readU16 m (base + readU32 m (base + 60) + 24) = 0x20B) :
    PeHeaders.parse m base = .ok
      { dos_header := base
        nt_header := base + readU32 m (base + 60)
        data_directories_addr := base + readU32 m (base + 60) + 136
        data_directories_len := readU32 m (base + readU32 m (base + 60) + 132)
        section_headers_addr := base + readU32 m (base + 60) + 136
          + readU32 m (base + readU32 m (base + 60) + 132) * 8
        section_headers_len := readU16 m (base + readU32 m (base + 60) + 6) } := by
  unfold PeHeaders.parse
  simp [OFF_e_lfanew, OFF_optional_magic, OFF_number_of_rva_and_sizes,
    OFF_number_of_sections, sizeOfImageNtHeaders64, sizeOfImageDataDirectory,
    IMAGE_DOS_SIGNATURE, IMAGE_NT_SIGNATURE, IMAGE_NT_OPTIONAL_HDR64_MAGIC,
    hmz, hsig, hmagic, Nat.not_lt.mpr hoff]

/-- Witness for C7: `parse_roundtrip` applied to the concrete
`sampleImage` buffer at base 0. -/
theorem parse_roundtrip_witness :
    PeHeaders.parse sampleImage 0 =
      .ok { dos_header := 0, nt_header := 64, data_directories_addr := 200
            data_directories_len := 2, section_headers_addr := 216
            section_headers_len := 1 } := by
  have h := parse_roundtrip sampleImage 0 (by decide) (by decide) (by decide)
    (by decide)
  rw [h]
  rfl

/-- **C2 (amended).** The export-table accessor fails with the
export-table error exactly when index 0 is out of range of the
data-directory array (i.e. the array is empty), the import-table accessor
fails with the import-table error exactly when index 1 is out of range,
and likewise the debug accessor for index 6; a present directory entry
whose virtual address or size is zero is NOT treated as a failure — the
accessor returns a table view computed from the zero values. -/
theorem table_mem_error_iff (m : Mem) (h : PeHeaders) (b : Nat) :
    (h.export_table_mem m b = .error .ExportTable ↔ h.data_directories_len = 0) ∧
    (h.import_table_mem m b = .error .ImportTable ↔ h.data_directories_len ≤ 1) ∧
    (h.debug_table_mem m b = .error .DebugTable ↔ h.data_directories_len ≤ 6) := by
  unfold PeHeaders.export_table_mem PeHeaders.import_table_mem
    PeHeaders.debug_table_mem IMAGE_DIRECTORY_ENTRY_EXPORT
    IMAGE_DIRECTORY_ENTRY_IMPORT IMAGE_DIRECTORY_ENTRY_DEBUG
  refine ⟨?_, ?_, ?_⟩ <;> split <;> simp <;> omega

/-- Counterexample to C2 as stated: with an all-zero memory and a header
view having 16 data-directory entries, the export entry (index 0) has
virtual address 0 and size 0 — "absent or zero-sized" — yet
`export_table_mem` succeeds with a table view instead of failing with the
export-table error (and likewise the import accessor at index 1). -/
theorem export_zero_size_not_error :
    PeHeaders.dataDirVirtualAddress zeroMem sixteenDirHeaders 0 = 0 ∧
    PeHeaders.dataDirSize zeroMem sixteenDirHeaders 0 = 0 ∧
    PeHeaders.export_table_mem zeroMem sixteenDirHeaders 0 =
      .ok (ExportTable.parse zeroMem 0 0 0) ∧
    PeHeaders.dataDirVirtualAddress zeroMem sixteenDirHeaders 1 = 0 ∧
    PeHeaders.dataDirSize zeroMem sixteenDirHeaders 1 = 0 ∧
    PeHeaders.import_table_mem zeroMem sixteenDirHeaders 0 = .ok none := by
  exact ⟨rfl, rfl, rfl, rfl, rfl, rfl⟩

/-- **C6.** The TLS accessor returns the TLS error exactly when index 9
is out of range of the data-directory array; when the entry exists and
its RVA field is zero it returns the successful `none` (distinguishable
from an error); when the RVA is nonzero it returns `some` directory view
at `base + rva`. -/
theorem tls_table_mem_spec (m : Mem) (h : PeHeaders) (b : Nat) :
    (h.tls_table_mem m b = .error .TlsTable ↔ h.data_directories_len ≤ 9) ∧
    (9 < h.data_directories_len → h.dataDirVirtualAddress m 9 = 0 →
      h.tls_table_mem m b = .ok none) ∧
    (9 < h.data_directories_len → h.dataDirVirtualAddress m 9 ≠ 0 →
      h.tls_table_mem m b = .ok (some ⟨b + h.dataDirVirtualAddress m 9⟩)) := by
  unfold PeHeaders.tls_table_mem IMAGE_DIRECTORY_ENTRY_TLS TlsDir.parse
  by_cases h9 : 9 < h.data_directories_len
  · by_cases hz : PeHeaders.dataDirVirtualAddress m h 9 = 0 <;>
      simp [h9, hz]
  · simp [h9]
    omega

/-- Witness for C6: `tls_table_mem_spec` applied to concrete inputs — a
nonzero TLS RVA (5) yields `some` view at `100 + 5`, and an all-zero
entry yields the successful `none`. -/
theorem tls_table_mem_spec_witness :
    PeHeaders.tls_table_mem tlsEntryMem sixteenDirHeaders 100 =
      .ok (some ⟨105⟩) ∧
    PeHeaders.tls_table_mem zeroMem sixteenDirHeaders 100 = .ok none := by
  constructor
  · exact (tls_table_mem_spec tlsEntryMem sixteenDirHeaders 100).2.2
      (by decide) (by decide)
  · exact (tls_table_mem_spec zeroMem sixteenDirHeaders 100).2.1
      (by decide) (by decide)

/-- **C5.** For every import (or debug) directory whose size is
`(k + 1) × record_size` with the final record zeroed, the reader returns
exactly `k` descriptor records: the count is
`(directory_size / record_size) − 1`, excluding the zero-record
terminator. (The record sizes are 20 and 28 bytes respectively.) -/
theorem parse_terminator_count (m : Mem) (a k : Nat)
    (hzi : ∀ j, j < 20 → readU8 m (a + 20 * k + j) = 0)
    (hzd : ∀ j, j < 28 → readU8 m (a + 28 * k + j) = 0) :
    ImportTable.parse a ((k + 1) * 20) = some ⟨a, k⟩ ∧
    DebugTable.parse a ((k + 1) * 28) = some ⟨a, k⟩ := by
  unfold ImportTable.parse DebugTable.parse sizeOfImageImportDescriptor
    sizeOfImageDebugDirectory
  have h1 : (k + 1) * 20 / 20 = k + 1 := by omega
  have h2 : (k + 1) * 28 / 28 = k + 1 := by omega
  rw [h1, h2]
  simp

/-- Witness for C5: `parse_terminator_count` on all-zero memory with
`k = 2` — a 60-byte import directory yields 2 descriptors and an 84-byte
debug directory yields 2 descriptors. -/
theorem parse_terminator_count_witness :
    ImportTable.parse 0 60 = some ⟨0, 2⟩ ∧
    DebugTable.parse 0 84 = some ⟨0, 2⟩ :=
  parse_terminator_count zeroMem 0 2 (by decide) (by decide)

/-- **C9.** The descriptor-count computation `size / record_size − 1` in
the import and debug readers is only well-defined when
`size ≥ record_size`: for every directory whose reported size is smaller
than one record (in particular size 0) the subtraction underflows and the
panic branch (`none`) of the embedded total function is reached, rather
than an empty table being returned; for `size ≥ record_size` the readers
return a table. -/
theorem parse_size_underflow (a size : Nat) :
    (size < 20 → ImportTable.parse a size = none) ∧
    (20 ≤ size → ImportTable.parse a size = some ⟨a, size / 20 - 1⟩) ∧
    (size < 28 → DebugTable.parse a size = none) ∧
    (28 ≤ size → DebugTable.parse a size = some ⟨a, size / 28 - 1⟩) := by
  unfold ImportTable.parse DebugTable.parse sizeOfImageImportDescriptor
    sizeOfImageDebugDirectory
  refine ⟨fun h => ?_, fun h => ?_, fun h => ?_, fun h => ?_⟩
  · rw [if_pos (by omega)]
  · rw [if_neg (by omega)]
  · rw [if_pos (by omega)]
  · rw [if_neg (by omega)]

/-- Witness for C9: `parse_size_underflow` at size 0 — both readers hit
the underflow branch instead of returning an empty table. -/
theorem parse_size_underflow_witness :
    ImportTable.parse 0 0 = none ∧ DebugTable.parse 0 0 = none :=
  ⟨(parse_size_underflow 0 0).1 (by decide),
   (parse_size_underflow 0 0).2.2.1 (by decide)⟩

theorem readU32_lt (m : Mem) (a : Nat) : readU32 m a < 4294967296 := by
  have h0 := readU8_lt m a
  have h1 := readU8_lt m (a + 1)
  have h2 := readU8_lt m (a + 2)
  have h3 := readU8_lt m (a + 2 + 1)
  unfold readU32 readU16
  omega

theorem wrap_cancel (base rva f : Nat) (hf : base + f < USIZE) :
    wrapSub (wrapAdd (base + rva) f) rva = base + f := by
  unfold wrapSub wrapAdd
  unfold USIZE at hf ⊢
  omega

/-- **C8.** For each of the three export sub-arrays (addresses, names,
ordinals), the address computed by `ExportTable::parse` as
`(export_directory_address + field_rva) − directory_rva` (wrapping
`usize` arithmetic) equals `base + field_rva` whenever the export
directory address is `base + directory_rva` — the hypothesis only rules
out address-space overflow (a field RVA is a `u32`, so
`base + 2^32 ≤ 2^64` suffices). -/
theorem export_parse_array_addrs (m : Mem) (base rva size : Nat)
    (hb : base + 4294967296 ≤ USIZE) :
    (ExportTable.parse m (base + rva) rva size).address_table_addr
      = base + readU32 m (base + rva + OFF_address_of_functions) ∧
    (ExportTable.parse m (base + rva) rva size).name_table_addr
      = base + readU32 m (base + rva + OFF_address_of_names) ∧
    (ExportTable.parse m (base + rva) rva size).ordinal_table_addr
      = base + readU32 m (base + rva + OFF_address_of_name_ordinals) := by
  have l1 := readU32_lt m (base + rva + OFF_address_of_functions)
  have l2 := readU32_lt m (base + rva + OFF_address_of_names)
  have l3 := readU32_lt m (base + rva + OFF_address_of_name_ordinals)
  unfold ExportTable.parse
  refine ⟨wrap_cancel _ _ _ (by omega), wrap_cancel _ _ _ (by omega),
    wrap_cancel _ _ _ (by omega)⟩

/-- Witness for C8: `export_parse_array_addrs` on all-zero memory at
base 0, rva 0 — all three computed table addresses equal
`base + field_rva = 0`. -/
theorem export_parse_array_addrs_witness :
    (ExportTable.parse zeroMem 0 0 0).address_table_addr = 0 ∧
    (ExportTable.parse zeroMem 0 0 0).name_table_addr = 0 ∧
    (ExportTable.parse zeroMem 0 0 0).ordinal_table_addr = 0 :=
  export_parse_array_addrs zeroMem 0 0 0 (by decide)

/-- **C10.** The TLS callback iterator's cursor field is never modified
by `next`: for every iterator state the state after a call equals the
state before it, so two consecutive calls read the same memory slot and
return the same item. -/
theorem tls_next_frame (m : Mem) (s : TlsCallbacks) :
    (TlsCallbacks.next m s).2 = s ∧
    TlsCallbacks.next m (TlsCallbacks.next m s).2 = TlsCallbacks.next m s :=
  ⟨rfl, rfl⟩

/-- **C1 (evaluation at the failing input).** For the callback array
[cb1, cb2, null] = [1, 2, 0] at address 0, the first call to `next`
yields cb1 and the second call yields cb1 again — not cb2 — because the
source's `self.callback_addr.add(1);` discards the advanced pointer, so
iteration never advances and never reaches the null terminator (slot 1
does hold cb2 = 2, which a correct iterator would return second). -/
theorem tls_callbacks_no_advance :
    (TlsCallbacks.next callbackMem ⟨0⟩).1 = some 1 ∧
    (TlsCallbacks.next callbackMem (TlsCallbacks.next callbackMem ⟨0⟩).2).1
      = some 1 ∧
    readU64 callbackMem 8 = 2 := by
  refine ⟨?_, ?_, ?_⟩ <;> decide

theorem readU32Array_getElem? (m : Mem) (a n i : Nat) (h : i < n) :
    (readU32Array m a n)[i]? = some (readU32 m (a + 4 * i)) := by
  unfold readU32Array
  simp [List.getElem?_map, List.getElem?_range h]

theorem readU16Array_getElem? (m : Mem) (a n i : Nat) (h : i < n) :
    (readU16Array m a n)[i]? = some (readU16 m (a + 2 * i)) := by
  unfold readU16Array
  simp [List.getElem?_map, List.getElem?_range h]

theorem export_iter_name_ord_eq (m : Mem) (a rva size : Nat) :
    (ExportTable.parse m a rva size).iter_name_ord m =
      (List.range (readU32 m (a + OFF_number_of_names))).map fun j =>
        (readU32 m ((ExportTable.parse m a rva size).name_table_addr + 4 * j),
         readU16 m ((ExportTable.parse m a rva size).ordinal_table_addr + 2 * j)) := by
  show ((List.range (readU32 m (a + OFF_number_of_names))).map fun j =>
      readU32 m ((ExportTable.parse m a rva size).name_table_addr + 4 * j)).zip
    ((List.range (readU32 m (a + OFF_number_of_names))).map fun j =>
      readU16 m ((ExportTable.parse m a rva size).ordinal_table_addr + 2 * j)) = _
  exact List.zip_map' _ _ _

/-- **C4.** For every export directory with N names and N ordinals
(`ExportTable::parse` gives both the name table and the ordinal table
length `number_of_names`), the name/ordinal sequence yields exactly N
pairs in table order — pair `i` is `(name_table[i], ordinal_table[i])` —
and, under the precondition that the ordinal is less than the function
count, the resolved entry of `iter_string_addr` at `i` is the
null-terminated string view at `base + name_table[i]` (a `CStr` modelled
by its start address) paired with `base + address_table[ordinal_table[i]]`. -/
theorem export_iter_spec (m : Mem) (a rva size b i : Nat)
    (hi : i < readU32 m (a + OFF_number_of_names)) :
    ((ExportTable.parse m a rva size).iter_name_ord m).length
      = readU32 m (a + OFF_number_of_names) ∧
    ((ExportTable.parse m a rva size).iter_name_ord m)[i]? =
      some (((ExportTable.parse m a rva size).name_table m).getD i 0,
            ((ExportTable.parse m a rva size).ordinal_table m).getD i 0) ∧
    (((ExportTable.parse m a rva size).ordinal_table m).getD i 0
        < readU32 m (a + OFF_number_of_functions) →
      ((ExportTable.parse m a rva size).iter_string_addr m b)[i]? =
        some (b + ((ExportTable.parse m a rva size).name_table m).getD i 0,
              b + ((ExportTable.parse m a rva size).address_table m).getD
                    (((ExportTable.parse m a rva size).ordinal_table m).getD i 0) 0)) := by
  have hn : ((ExportTable.parse m a rva size).name_table m).getD i 0
      = readU32 m ((ExportTable.parse m a rva size).name_table_addr + 4 * i) := by
    rw [List.getD_eq_getElem?_getD]
    rw [show (ExportTable.parse m a rva size).name_table m =
      readU32Array m (ExportTable.parse m a rva size).name_table_addr
        (readU32 m (a + OFF_number_of_names)) from rfl]
    rw [readU32Array_getElem? m _ _ i hi]
    rfl
  have ho : ((ExportTable.parse m a rva size).ordinal_table m).getD i 0
      = readU16 m ((ExportTable.parse m a rva size).ordinal_table_addr + 2 * i) := by
    rw [List.getD_eq_getElem?_getD]
    rw [show (ExportTable.parse m a rva size).ordinal_table m =
      readU16Array m (ExportTable.parse m a rva size).ordinal_table_addr
        (readU32 m (a + OFF_number_of_names)) from rfl]
    rw [readU16Array_getElem? m _ _ i hi]
    rfl
  refine ⟨?_, ?_, ?_⟩
  · rw [export_iter_name_ord_eq]
    simp
  · rw [export_iter_name_ord_eq, hn, ho]
    simp [List.getElem?_map, List.getElem?_range hi]
  · intro hord
    have ha : ((ExportTable.parse m a rva size).address_table m).getD
          (((ExportTable.parse m a rva size).ordinal_table m).getD i 0) 0
        = readU32 m ((ExportTable.parse m a rva size).address_table_addr
            + 4 * (((ExportTable.parse m a rva size).ordinal_table m).getD i 0)) := by
      rw [List.getD_eq_getElem?_getD]
      rw [show (ExportTable.parse m a rva size).address_table m =
        readU32Array m (ExportTable.parse m a rva size).address_table_addr
          (readU32 m (a + OFF_number_of_functions)) from rfl]
      rw [readU32Array_getElem? m _ _ _ hord]
      rfl
    rw [ha, hn]
    unfold ExportTable.iter_string_addr
    rw [export_iter_name_ord_eq]
    rw [List.getElem?_map, List.getElem?_map, List.getElem?_range hi]
    simp [ho]
    rw [← List.getD_eq_getElem?_getD, ho]

/-- Witness for C4: `export_iter_spec` on the concrete `exportMem`
directory (one name, one function): the single name/ordinal pair is
(112, 0) and with image base 1000 the resolved entry is the string view
at 1000 + 112 paired with address 1000 + 17. -/
theorem export_iter_spec_witness :
    ((ExportTable.parse exportMem 0 0 0).iter_name_ord exportMem).length = 1 ∧
    ((ExportTable.parse exportMem 0 0 0).iter_name_ord exportMem)[0]? =
      some (112, 0) ∧
    ((ExportTable.parse exportMem 0 0 0).iter_string_addr exportMem 1000)[0]? =
      some (1112, 1017) := by
  obtain ⟨h1, h2, h3⟩ := export_iter_spec exportMem 0 0 0 1000 0 (by decide)
  refine ⟨?_, ?_, ?_⟩
  · rw [h1]
    decide
  · rw [h2]
    decide
  · rw [h3 (by decide)]
    decide
